import Mathlib

/-
Verification of the valuation-merge / normalization / divergence-classification /
trade-matching engine of the fantasy-football trade analyzer.

The engine lives in `trade_analyzer.py` (class `TradeAnalyzer`), with its
configuration defaults in `fantasy_config.py`, the producer of the perceived-value
table in `value_sources.py` and the fatal-error checks of the surrounding run in
`main.py`.  Tables are embedded as lists of records; pandas left-joins become
explicit list joins; numeric columns (Python floats) are embedded as rationals,
so every arithmetic operation of the source is exact here.  Division is the
total division of `ℚ` (with `x / 0 = 0`); wherever the source can divide by
zero this junk-value convention is noted next to the definition.
-/

namespace FantasyTrade

/-- One row of the roster table handed to `TradeAnalyzer` (built by
`espn_client` / `main.py`): player identity, position and owning fantasy team. -/
structure RosterRow where
  player_name : String
  position : String
  team_name : String
deriving DecidableEq

/-- One row of the perceived-value table.  Its producer,
`value_sources.FantasyCalcClient.get_redraft_values`, always fills the raw
`perceived_value` (default 0), the scarcity-adjusted `perceived_value_adjusted`
(raw value times the position multiplier) and `overall_rank`, so these cells are
never null; `TradeAnalyzer.merge_data_sources` line 36 unconditionally selects
all three columns. -/
structure PerceivedRow where
  player_name : String
  perceived_value : ℚ
  perceived_value_adjusted : ℚ
  overall_rank : ℤ
deriving DecidableEq

/-- One row of the forecasted-value table.  `merge_data_sources` accepts the
column under either the name `rest_of_season_projection` or `forecasted_value`
and renames the former to the latter; both branches leave the same shape, which
is what is embedded here. -/
structure ForecastRow where
  player_name : String
  forecasted_value : ℚ
deriving DecidableEq

/-- A row of the merged table (`TradeAnalyzer.merge_data_sources`).  The value
columns are `Option`-valued because the two pandas left-joins put NaN in the
cells of roster players that matched no row of a value table. -/
structure MergedRow where
  player_name : String
  position : String
  team_name : String
  perceived_value : Option ℚ
  perceived_value_adjusted : Option ℚ
  overall_rank : Option ℤ
  forecasted_value : Option ℚ
deriving DecidableEq

/-- The pandas left-join of one roster row against the perceived table
(`trade_analyzer.py` lines 35-39): one output row per perceived row with the
same `player_name` (in table order), or a single all-NaN-values row when no
perceived row matches. -/
def joinPerceived (perceived : List PerceivedRow) (r : RosterRow) : List MergedRow :=
  let ms := perceived.filter fun p => p.player_name == r.player_name
  if ms.isEmpty then
    [{ player_name := r.player_name, position := r.position, team_name := r.team_name,
       perceived_value := none, perceived_value_adjusted := none,
       overall_rank := none, forecasted_value := none }]
  else
    ms.map fun p =>
      { player_name := r.player_name, position := r.position, team_name := r.team_name,
        perceived_value := some p.perceived_value,
        perceived_value_adjusted := some p.perceived_value_adjusted,
        overall_rank := some p.overall_rank, forecasted_value := none }

/-- The pandas left-join of one partially merged row against the forecasted
table (`trade_analyzer.py` lines 44-59): fills `forecasted_value` from each
matching forecast row, or leaves it NaN when none matches. -/
def joinForecast (forecasted : List ForecastRow) (m : MergedRow) : List MergedRow :=
  let ms := forecasted.filter fun f => f.player_name == m.player_name
  if ms.isEmpty then
    [{ m with forecasted_value := none }]
  else
    ms.map fun f => { m with forecasted_value := some f.forecasted_value }

/-- `TradeAnalyzer.merge_data_sources` (lines 22-72): left-join the roster with
the perceived table, then with the forecasted table, drop every row lacking
`perceived_value` or `forecasted_value` (`dropna`, line 64), and finally
overwrite `perceived_value` with `perceived_value_adjusted` (lines 68-69). -/
def merge_data_sources (roster : List RosterRow) (perceived : List PerceivedRow)
    (forecasted : List ForecastRow) : List MergedRow :=
  let df1 := roster.flatMap (joinPerceived perceived)
  let df2 := df1.flatMap (joinForecast forecasted)
  let complete := df2.filter fun m => m.perceived_value.isSome && m.forecasted_value.isSome
  complete.map fun m => { m with perceived_value := m.perceived_value_adjusted }

/-- Arithmetic mean of a numeric column, as `pandas.Series.mean` computes it on
the all-non-null columns this program feeds it.  On an empty column the source
produces NaN; here `ℚ` total division yields the junk value 0. -/
def colMean (xs : List ℚ) : ℚ := xs.sum / xs.length

/-- A merged row extended with the two normalized columns added by
`TradeAnalyzer.normalize_values`. -/
structure NormRow extends MergedRow where
  perceived_normalized : ℚ
  forecasted_normalized : ℚ
deriving DecidableEq

/-- `TradeAnalyzer.normalize_values` (lines 74-95): divide each value column by
its mean over the merged rows and multiply by 100.  The merged rows always have
both values present (`dropna`), so reading the cells with `Option.getD 0` never
actually pads; it only makes the function total. -/
def normalize_values (df : List MergedRow) : List NormRow :=
  let avg_perceived := colMean (df.map fun m => m.perceived_value.getD 0)
  let avg_forecasted := colMean (df.map fun m => m.forecasted_value.getD 0)
  df.map fun m =>
    { toMergedRow := m,
      perceived_normalized := m.perceived_value.getD 0 / avg_perceived * 100,
      forecasted_normalized := m.forecasted_value.getD 0 / avg_forecasted * 100 }

/-- Default undervalued threshold, `fantasy_config.MIN_DISCOUNT_THRESHOLD`. -/
def MIN_DISCOUNT_THRESHOLD : ℚ := 10

/-- Default overvalued threshold, `fantasy_config.MIN_PREMIUM_THRESHOLD`. -/
def MIN_PREMIUM_THRESHOLD : ℚ := -10

/-- Default untouchable list, `fantasy_config.UNTOUCHABLE_PLAYERS`. -/
def UNTOUCHABLE_PLAYERS : List String := []

/-- The category lambda of `TradeAnalyzer.calculate_discount_premium`
(lines 116-120), with the two config thresholds passed explicitly. -/
def categorize (t_discount t_premium x : ℚ) : String :=
  if x > t_discount then "Undervalued"
  else if x < t_premium then "Overvalued"
  else "Fair Value"

/-- `TradeAnalyzer._interpret_discount` (lines 128-140). -/
def interpret_discount (value : ℚ) : String :=
  if value > 30 then "Severely undervalued - BUY"
  else if value > 10 then "Undervalued - Good buy target"
  else if value > -10 then "Fair value"
  else if value > -30 then "Overvalued - Good sell candidate"
  else "Severely overvalued - SELL"

/-- A normalized row extended with the three columns added by
`TradeAnalyzer.calculate_discount_premium`. -/
structure ClassifiedRow extends NormRow where
  discount_premium : ℚ
  value_category : String
  interpretation : String
deriving DecidableEq

/-- `TradeAnalyzer.calculate_discount_premium` (lines 97-126): the divergence
formula `(forecasted_normalized - perceived_normalized) / forecasted_normalized
* 100` applied to every row (no guard on a zero denominator: pandas produces
NaN or infinity there, the `ℚ` embedding the junk value 0; in both semantics
the row stays and is fed to the category lambda), then the three-way category
and the five-way interpretation. -/
def calculate_discount_premium (t_discount t_premium : ℚ) (df : List NormRow) :
    List ClassifiedRow :=
  df.map fun m =>
    let dp := (m.forecasted_normalized - m.perceived_normalized) / m.forecasted_normalized * 100
    { toNormRow := m, discount_premium := dp,
      value_category := categorize t_discount t_premium dp,
      interpretation := interpret_discount dp }

/-- `TradeAnalyzer.analyze_team` (lines 142-152): the team's rows split into
the overvalued ones (discount below the premium threshold, sorted ascending by
`discount_premium`) and the undervalued ones (discount above the discount
threshold, sorted descending).  `pandas.sort_values` is embedded as a sort; no
claim depends on the order among ties. -/
def analyze_team (t_discount t_premium : ℚ) (df : List ClassifiedRow)
    (team_name : String) : List ClassifiedRow × List ClassifiedRow :=
  let team_df := df.filter fun m => m.team_name == team_name
  let overvalued := List.insertionSort (fun a b => a.discount_premium ≤ b.discount_premium)
    (team_df.filter fun m => decide (m.discount_premium < t_premium))
  let undervalued := List.insertionSort (fun a b => b.discount_premium ≤ a.discount_premium)
    (team_df.filter fun m => decide (m.discount_premium > t_discount))
  (overvalued, undervalued)

/-- `TradeAnalyzer.find_trade_targets` (lines 160-177): rows of other teams
with `discount_premium` above the discount threshold, optionally restricted to
one position (the source tests the filter for Python truthiness, so `None` and
the empty string both mean no restriction), with untouchable players removed
when the untouchable list is non-empty, sorted descending by
`discount_premium`. -/
def find_trade_targets (t_discount : ℚ) (untouchable : List String)
    (df : List ClassifiedRow) (your_team : String) (position_filter : Option String) :
    List ClassifiedRow :=
  let other_teams := df.filter fun m => !(m.team_name == your_team)
  let targets := other_teams.filter fun m => decide (m.discount_premium > t_discount)
  let targets := match position_filter with
    | some p => if p == "" then targets else targets.filter fun m => m.position == p
    | none => targets
  let targets := if untouchable.isEmpty then targets
    else targets.filter fun m => !(untouchable.contains m.player_name)
  List.insertionSort (fun a b => b.discount_premium ≤ a.discount_premium) targets

/-- One suggestion record as built by the dict literal in
`TradeAnalyzer.suggest_trade_pairs` (lines 207-221). -/
structure TradeSuggestion where
  give_player : String
  give_position : String
  give_perceived : ℚ
  give_forecasted : ℚ
  give_discount : ℚ
  get_player : String
  get_position : String
  get_team : String
  get_perceived : ℚ
  get_forecasted : ℚ
  get_discount : ℚ
  value_gain : ℚ
  value_gain_pct : ℚ
deriving DecidableEq

/-- The dict literal of `suggest_trade_pairs` (lines 207-221), including the
guarded `value_gain_pct` ternary of line 220. -/
def mkSuggestion (your_player target : ClassifiedRow) : TradeSuggestion :=
  let value_gain := target.forecasted_normalized - your_player.forecasted_normalized
  { give_player := your_player.player_name,
    give_position := your_player.position,
    give_perceived := your_player.perceived_normalized,
    give_forecasted := your_player.forecasted_normalized,
    give_discount := your_player.discount_premium,
    get_player := target.player_name,
    get_position := target.position,
    get_team := target.team_name,
    get_perceived := target.perceived_normalized,
    get_forecasted := target.forecasted_normalized,
    get_discount := target.discount_premium,
    value_gain := value_gain,
    value_gain_pct := if your_player.forecasted_normalized > 0
      then value_gain / your_player.forecasted_normalized * 100 else 0 }

/-- `TradeAnalyzer.suggest_trade_pairs` (lines 179-227).  The tolerance is the
`config.VALUE_MATCH_TOLERANCE` the source reads; `fantasy_config.py` commits no
default for it, so it is passed explicitly, exactly as the thresholds and the
untouchable list are. -/
def suggest_trade_pairs (t_discount t_premium tolerance : ℚ)
    (untouchable : List String) (df : List ClassifiedRow) (your_team : String)
    (max_suggestions : Nat) : List TradeSuggestion :=
  let your_overvalued := (analyze_team t_discount t_premium df your_team).1
  let trade_targets := find_trade_targets t_discount untouchable df your_team none
  if your_overvalued.isEmpty || trade_targets.isEmpty then []
  else
    let suggestions := your_overvalued.flatMap fun your_player =>
      let your_perceived := your_player.perceived_normalized
      let similar := trade_targets.filter fun t =>
        decide (t.perceived_normalized ≥ your_perceived * (1 - tolerance)) &&
        decide (t.perceived_normalized ≤ your_perceived * (1 + tolerance))
      (similar.take 3).filterMap fun target =>
        let value_gain := target.forecasted_normalized - your_player.forecasted_normalized
        if value_gain > 5 then some (mkSuggestion your_player target) else none
    if suggestions.isEmpty then []
    else (List.insertionSort (fun a b => b.value_gain ≤ a.value_gain) suggestions).take
      max_suggestions

/-- The state of a `TradeAnalyzer` object: the three input tables taken by the
constructor (lines 16-20) plus the mutable `merged_df` cache the pipeline
methods write through. -/
structure TradeAnalyzer where
  roster_df : List RosterRow
  perceived_df : List PerceivedRow
  forecasted_df : List ForecastRow
  merged_df : Option (List ClassifiedRow)
deriving DecidableEq

/-- The merge, then normalize, then classify composition run by `main.py`
(lines 178-189). -/
def pipeline (t_discount t_premium : ℚ) (roster : List RosterRow)
    (perceived : List PerceivedRow) (forecasted : List ForecastRow) :
    List ClassifiedRow :=
  calculate_discount_premium t_discount t_premium
    (normalize_values (merge_data_sources roster perceived forecasted))

/-- One full run of the three pipeline methods on an analyzer object:
`merge_data_sources` recomputes `merged_df` from the three stored input tables,
and `normalize_values` / `calculate_discount_premium` rewrite it in place. -/
def run_pipeline (t_discount t_premium : ℚ) (a : TradeAnalyzer) : TradeAnalyzer :=
  { a with merged_df := some (pipeline t_discount t_premium
      a.roster_df a.perceived_df a.forecasted_df) }

/-- The distinct fatal conditions `main.py` aborts a run with before and after
the merge: empty perceived table (lines 132-135), empty forecasted table
(lines 165-168), and a merge that produced zero complete rows (lines 180-183). -/
inductive RunError where
  | MissingPerceivedValues
  | MissingForecastedValues
  | NoCompleteMatches
deriving DecidableEq

/-- The fatal-condition structure of `main.py` around the analysis core
(steps 2-4): each `sys.exit(1)` branch becomes a distinct error value, and a
run reaching the analysis returns the classified table. -/
def run_main (t_discount t_premium : ℚ) (roster : List RosterRow)
    (perceived : List PerceivedRow) (forecasted : List ForecastRow) :
    Except RunError (List ClassifiedRow) :=
  if perceived.isEmpty then .error .MissingPerceivedValues
  else if forecasted.isEmpty then .error .MissingForecastedValues
  else
    let merged := merge_data_sources roster perceived forecasted
    if merged.isEmpty then .error .NoCompleteMatches
    else .ok (calculate_discount_premium t_discount t_premium (normalize_values merged))

/-! Concrete tables used by the witnesses and counterexamples below.  TeamX
holds Alice, overvalued by the market (adjusted perceived 120 against forecast
50); TeamY holds Dave, undervalued (perceived 80 against forecast 150).  The
adjusted perceived means are (120 + 80) / 2 = 100 and the forecast mean is
(50 + 150) / 2 = 100, so the normalized columns are easy to read off. -/

/-- Example roster table: Alice on TeamX, Dave on TeamY. -/
def exRoster : List RosterRow :=
  [⟨"Alice", "RB", "TeamX"⟩, ⟨"Dave", "WR", "TeamY"⟩]

/-- Example perceived table.  Alice's raw value 100 differs from her adjusted
value 120, exercising the supersede step of the merge. -/
def exPerceived : List PerceivedRow :=
  [⟨"Alice", 100, 120, 1⟩, ⟨"Dave", 80, 80, 2⟩]

/-- Example forecasted table. -/
def exForecast : List ForecastRow :=
  [⟨"Alice", 50⟩, ⟨"Dave", 150⟩]

/-- The team being analyzed in the examples. -/
def exTeam : String := "TeamX"

/-- Alice's merged row: her `perceived_value` is the adjusted 120, not the raw
100. -/
def mAlice : MergedRow :=
  ⟨"Alice", "RB", "TeamX", some 120, some 120, some 1, some 50⟩

/-- Dave's merged row. -/
def mDave : MergedRow :=
  ⟨"Dave", "WR", "TeamY", some 80, some 80, some 2, some 150⟩

/-- The example tables after normalization. -/
def exNorm : List NormRow :=
  normalize_values (merge_data_sources exRoster exPerceived exForecast)

/-- The example tables after classification with the default thresholds. -/
def exClassified : List ClassifiedRow :=
  calculate_discount_premium MIN_DISCOUNT_THRESHOLD MIN_PREMIUM_THRESHOLD exNorm

/-- Alice's classified row: divergence (50 - 120) / 50 * 100 = -140, hence
Overvalued. -/
def cAlice : ClassifiedRow :=
  ⟨⟨mAlice, 120, 50⟩, -140, "Overvalued", "Severely overvalued - SELL"⟩

/-- Dave's classified row: divergence (150 - 80) / 150 * 100 = 140 / 3, hence
Undervalued. -/
def cDave : ClassifiedRow :=
  ⟨⟨mDave, 80, 150⟩, 140 / 3, "Undervalued", "Severely undervalued - BUY"⟩

/-- The one suggestion the matcher emits on the example tables with tolerance
1/2: give Alice, get Dave, gaining 150 - 50 = 100 forecast points, which is
100 / 50 * 100 = 200 percent of Alice's forecast. -/
def exSuggestion : TradeSuggestion :=
  { give_player := "Alice", give_position := "RB", give_perceived := 120,
    give_forecasted := 50, give_discount := -140,
    get_player := "Dave", get_position := "WR", get_team := "TeamY",
    get_perceived := 80, get_forecasted := 150, get_discount := 140 / 3,
    value_gain := 100, value_gain_pct := 200 }

/-- An analyzer over the example tables with nothing cached yet. -/
def exAnalyzerA : TradeAnalyzer := ⟨exRoster, exPerceived, exForecast, none⟩

/-- An analyzer over the same tables with a stale cache, to exercise
statelessness. -/
def exAnalyzerB : TradeAnalyzer := ⟨exRoster, exPerceived, exForecast, some []⟩

/-- A roster whose only player matches neither value table, so the merge
produces zero complete rows. -/
def noMatchRoster : List RosterRow := [⟨"Carol", "QB", "TeamZ"⟩]

/-- One-player tables whose perceived and forecasted values are all zero: the
column means are zero, the case on which the claimed mean-100 invariant
breaks. -/
def zeroRoster : List RosterRow := [⟨"Zoe", "RB", "TeamZ"⟩]

/-- Perceived table for the zero-mean counterexample. -/
def zeroPerceived : List PerceivedRow := [⟨"Zoe", 0, 0, 1⟩]

/-- Forecasted table for the zero-mean counterexample. -/
def zeroForecast : List ForecastRow := [⟨"Zoe", 0⟩]

/-- Roster for the zero-forecast counterexample: Alice's forecast is zero while
Bob keeps the means nonzero. -/
def zfRoster : List RosterRow :=
  [⟨"Alice", "RB", "TeamX"⟩, ⟨"Bob", "WR", "TeamY"⟩]

/-- Perceived table for the zero-forecast counterexample. -/
def zfPerceived : List PerceivedRow :=
  [⟨"Alice", 0, 0, 1⟩, ⟨"Bob", 100, 100, 2⟩]

/-- Forecasted table for the zero-forecast counterexample: Alice's
`forecasted_value` is 0, so her `forecasted_normalized` is 0. -/
def zfForecast : List ForecastRow :=
  [⟨"Alice", 0⟩, ⟨"Bob", 100⟩]

/-! Helper lemmas tracing rows through the two left-joins and the drop/overwrite
steps of `merge_data_sources`. -/

/-- Every row emitted by the perceived-value left-join carries the roster row's
identity fields, has no forecast yet, and either has both perceived cells null
(no match) or takes both from one matching perceived row. -/
theorem mem_joinPerceived {perceived : List PerceivedRow} {r : RosterRow} {m : MergedRow}
    (hm : m ∈ joinPerceived perceived r) :
    m.player_name = r.player_name ∧ m.position = r.position ∧ m.team_name = r.team_name ∧
    m.forecasted_value = none ∧
    ((m.perceived_value = none ∧ m.perceived_value_adjusted = none) ∨
      ∃ p ∈ perceived, p.player_name = r.player_name ∧
        m.perceived_value = some p.perceived_value ∧
        m.perceived_value_adjusted = some p.perceived_value_adjusted) := by
  unfold joinPerceived at hm
  by_cases h : (perceived.filter fun p => p.player_name == r.player_name).isEmpty
  · simp only [h, if_pos] at hm
    simp only [List.mem_singleton] at hm
    subst hm
    exact ⟨rfl, rfl, rfl, rfl, Or.inl ⟨rfl, rfl⟩⟩
  · simp only [h, if_neg, Bool.false_eq_true, not_false_iff] at hm
    obtain ⟨p, hp, rfl⟩ := List.mem_map.mp hm
    have hp2 := List.mem_filter.mp hp
    refine ⟨rfl, rfl, rfl, rfl, Or.inr ⟨p, hp2.1, ?_, rfl, rfl⟩⟩
    simpa using hp2.2

/-- Every row emitted by the forecast left-join keeps all fields of its input
row except `forecasted_value`. -/
theorem mem_joinForecast {forecasted : List ForecastRow} {m0 m : MergedRow}
    (hm : m ∈ joinForecast forecasted m0) :
    m.player_name = m0.player_name ∧ m.position = m0.position ∧
    m.team_name = m0.team_name ∧ m.perceived_value = m0.perceived_value ∧
    m.perceived_value_adjusted = m0.perceived_value_adjusted ∧
    m.overall_rank = m0.overall_rank := by
  unfold joinForecast at hm
  by_cases h : (forecasted.filter fun f => f.player_name == m0.player_name).isEmpty
  · simp only [h, if_pos] at hm
    simp only [List.mem_singleton] at hm
    subst hm
    exact ⟨rfl, rfl, rfl, rfl, rfl, rfl⟩
  · simp only [h, if_neg, Bool.false_eq_true, not_false_iff] at hm
    obtain ⟨f, _, rfl⟩ := List.mem_map.mp hm
    exact ⟨rfl, rfl, rfl, rfl, rfl, rfl⟩

/-- Every row of the merged table traces back to one perceived row of the same
player whose adjusted value became the row's `perceived_value`, and has a
present `forecasted_value`. -/
theorem mem_merge_data_sources {roster : List RosterRow} {perceived : List PerceivedRow}
    {forecasted : List ForecastRow} {m : MergedRow}
    (hm : m ∈ merge_data_sources roster perceived forecasted) :
    m.perceived_value = m.perceived_value_adjusted ∧ m.forecasted_value.isSome ∧
    ∃ p ∈ perceived, p.player_name = m.player_name ∧
      m.perceived_value = some p.perceived_value_adjusted := by
  unfold merge_data_sources at hm
  obtain ⟨m0, hm0, rfl⟩ := List.mem_map.mp hm
  have hfil := List.mem_filter.mp hm0
  have hcomplete := hfil.2
  simp only [Bool.and_eq_true, Option.isSome_iff_exists] at hcomplete
  obtain ⟨m1, hm1, hjf⟩ := List.mem_flatMap.mp hfil.1
  obtain ⟨r, _, hjp⟩ := List.mem_flatMap.mp hm1
  have t1 := mem_joinForecast hjf
  have t2 := mem_joinPerceived hjp
  rcases t2.2.2.2.2 with hnone | ⟨p, hp, hpname, hpv, hpa⟩
  · exfalso
    obtain ⟨v, hv⟩ := hcomplete.1
    rw [t1.2.2.2.1, hnone.1] at hv
    exact Option.noConfusion hv
  · refine ⟨rfl, ?_, p, hp, ?_, ?_⟩
    · simpa [Option.isSome_iff_exists] using hcomplete.2
    · rw [hpname, ← t2.1, t1.1]
    · show m0.perceived_value_adjusted = some p.perceived_value_adjusted
      rw [t1.2.2.2.2.1, hpa]

/-- Multiplying a mapped column by a constant and dividing it by a constant
commutes with the list sum. -/
theorem sum_map_div_mul {α : Type} (l : List α) (f : α → ℚ) (a c : ℚ) :
    (l.map fun x => f x / a * c).sum = (l.map f).sum / a * c := by
  induction l with
  | nil => simp
  | cons x xs ih => simp [ih, add_div, add_mul]

/-- Rescaling a column to percent-of-mean gives a column whose mean is exactly
100, provided the original mean is nonzero. -/
theorem colMean_rescaled {α : Type} (l : List α) (f : α → ℚ) (hne : l ≠ [])
    (h : colMean (l.map f) ≠ 0) :
    colMean (l.map fun x => f x / colMean (l.map f) * 100) = 100 := by
  have hn : ((l.length : ℚ)) ≠ 0 := by
    simpa [List.length_eq_zero] using hne
  have hS : (l.map f).sum ≠ 0 := by
    intro h0
    exact h (by simp [colMean, h0])
  unfold colMean at *
  rw [sum_map_div_mul, List.length_map, List.length_map] at *
  field_simp

/-- The category lambda realizes the three-way threshold partition: whenever the
premium threshold does not exceed the discount threshold, each of the three
labels is assigned exactly on its band, and one of them is always assigned. -/
theorem categorize_spec (t_discount t_premium x : ℚ) (h : t_premium ≤ t_discount) :
    (categorize t_discount t_premium x = "Undervalued" ∨
      categorize t_discount t_premium x = "Overvalued" ∨
      categorize t_discount t_premium x = "Fair Value") ∧
    (categorize t_discount t_premium x = "Undervalued" ↔ t_discount < x) ∧
    (categorize t_discount t_premium x = "Overvalued" ↔ x < t_premium) ∧
    (categorize t_discount t_premium x = "Fair Value" ↔
      t_premium ≤ x ∧ x ≤ t_discount) := by
  unfold categorize
  split_ifs with h1 h2
  · exact ⟨Or.inl rfl,
      ⟨fun _ => h1, fun _ => rfl⟩,
      ⟨fun hx => absurd hx (by decide), fun hx => absurd hx (by linarith)⟩,
      ⟨fun hx => absurd hx (by decide), fun hx => absurd hx.2 (by linarith)⟩⟩
  · exact ⟨Or.inr (Or.inl rfl),
      ⟨fun hx => absurd hx (by decide), fun hx => absurd hx h1⟩,
      ⟨fun _ => h2, fun _ => rfl⟩,
      ⟨fun hx => absurd hx (by decide), fun hx => absurd hx.1 (by linarith)⟩⟩
  · exact ⟨Or.inr (Or.inr rfl),
      ⟨fun hx => absurd hx (by decide), fun hx => absurd hx h1⟩,
      ⟨fun hx => absurd hx (by decide), fun hx => absurd hx h2⟩,
      ⟨fun _ => ⟨le_of_not_lt h2, le_of_not_lt h1⟩, fun _ => rfl⟩⟩

/-- Rows of `calculate_discount_premium` output are in bijection with input
rows: the classified row keeps all inherited fields and carries the computed
divergence and its category. -/
theorem mem_calculate_discount_premium {t_discount t_premium : ℚ} {df : List NormRow}
    {r : ClassifiedRow} (hr : r ∈ calculate_discount_premium t_discount t_premium df) :
    r.discount_premium =
      (r.forecasted_normalized - r.perceived_normalized) / r.forecasted_normalized * 100 ∧
    r.value_category = categorize t_discount t_premium r.discount_premium ∧
    r.toNormRow ∈ df := by
  unfold calculate_discount_premium at hr
  obtain ⟨m, hm, rfl⟩ := List.mem_map.mp hr
  exact ⟨rfl, rfl, hm⟩

/-- Every emitted suggestion comes from one overvalued give-candidate and one
trade target inside the perceived-value tolerance band whose forecast gain
strictly exceeds 5. -/
theorem mem_suggest_trade_pairs {t_discount t_premium tolerance : ℚ}
    {untouchable : List String} {df : List ClassifiedRow} {your_team : String}
    {max_suggestions : Nat} {s : TradeSuggestion}
    (hs : s ∈ suggest_trade_pairs t_discount t_premium tolerance untouchable df
      your_team max_suggestions) :
    ∃ your_player target : ClassifiedRow,
      your_player ∈ (analyze_team t_discount t_premium df your_team).1 ∧
      target ∈ find_trade_targets t_discount untouchable df your_team none ∧
      your_player.perceived_normalized * (1 - tolerance) ≤ target.perceived_normalized ∧
      target.perceived_normalized ≤ your_player.perceived_normalized * (1 + tolerance) ∧
      5 < target.forecasted_normalized - your_player.forecasted_normalized ∧
      s = mkSuggestion your_player target := by
  unfold suggest_trade_pairs at hs
  dsimp only at hs
  split_ifs at hs with h1 h2
  · exact absurd hs (List.not_mem_nil s)
  · exact absurd hs (List.not_mem_nil s)
  · have hs1 := List.mem_insertionSort
      (fun a b : TradeSuggestion => b.value_gain ≤ a.value_gain)
      |>.mp (List.mem_of_mem_take hs)
    obtain ⟨yp, hyp, hin⟩ := List.mem_flatMap.mp hs1
    obtain ⟨t, ht, heq⟩ := List.mem_filterMap.mp hin
    have ht2 := List.mem_filter.mp (List.mem_of_mem_take ht)
    have hband := ht2.2
    simp only [Bool.and_eq_true, decide_eq_true_eq] at hband
    by_cases hg : t.forecasted_normalized - yp.forecasted_normalized > 5
    · rw [if_pos hg] at heq
      exact ⟨yp, t, hyp, ht2.1, hband.1, hband.2, hg, (Option.some.inj heq).symm⟩
    · rw [if_neg hg] at heq
      exact absurd heq (by simp)

/-- Every normalized row is built from a row of the merged table, keeping all
merged fields. -/
theorem mem_normalize_values {df : List MergedRow} {r : NormRow}
    (hr : r ∈ normalize_values df) : r.toMergedRow ∈ df := by
  simp only [normalize_values] at hr
  obtain ⟨m, hm, rfl⟩ := List.mem_map.mp hr
  exact hm

/-! The claim theorems. -/

/-- C1 (amended): for every merged row set produced by `merge_data_sources`
that is non-empty and whose perceived-value and forecasted-value columns have
nonzero means, `normalize_values` yields columns whose arithmetic means are
exactly 100.  (The claim as stated, without the nonzero-mean proviso, fails:
see the counterexample with an all-zero value column, where pandas produces a
NaN mean and the exact embedding the junk mean 0.) -/
theorem normalize_mean_invariant (roster : List RosterRow) (perceived : List PerceivedRow)
    (forecasted : List ForecastRow)
    (hne : merge_data_sources roster perceived forecasted ≠ [])
    (hP : colMean ((merge_data_sources roster perceived forecasted).map
      fun m => m.perceived_value.getD 0) ≠ 0)
    (hF : colMean ((merge_data_sources roster perceived forecasted).map
      fun m => m.forecasted_value.getD 0) ≠ 0) :
    colMean ((normalize_values (merge_data_sources roster perceived forecasted)).map
      fun r => r.perceived_normalized) = 100 ∧
    colMean ((normalize_values (merge_data_sources roster perceived forecasted)).map
      fun r => r.forecasted_normalized) = 100 := by
  constructor
  · have hmap : (normalize_values (merge_data_sources roster perceived forecasted)).map
        (fun r => r.perceived_normalized)
        = (merge_data_sources roster perceived forecasted).map
            fun m => m.perceived_value.getD 0 /
              colMean ((merge_data_sources roster perceived forecasted).map
                fun m => m.perceived_value.getD 0) * 100 := by
      simp [normalize_values, List.map_map, Function.comp]
    rw [hmap]
    exact colMean_rescaled _ _ hne hP
  · have hmap : (normalize_values (merge_data_sources roster perceived forecasted)).map
        (fun r => r.forecasted_normalized)
        = (merge_data_sources roster perceived forecasted).map
            fun m => m.forecasted_value.getD 0 /
              colMean ((merge_data_sources roster perceived forecasted).map
                fun m => m.forecasted_value.getD 0) * 100 := by
      simp [normalize_values, List.map_map, Function.comp]
    rw [hmap]
    exact colMean_rescaled _ _ hne hF

/-- C2 (amended): `calculate_discount_premium` computes the divergence by the
formula for every row and classifies every row, including rows whose
`forecasted_normalized` is zero: no row is excluded and none is marked
Unknown — each one receives one of the three ordinary categories, and the
computation is total (no runtime division fault; pandas produces NaN or
infinity in the zero case, the embedding the junk value 0). -/
theorem discount_premium_total_classification (t_discount t_premium : ℚ)
    (df : List NormRow) :
    (calculate_discount_premium t_discount t_premium df).length = df.length ∧
    ∀ r ∈ calculate_discount_premium t_discount t_premium df,
      r.discount_premium =
        (r.forecasted_normalized - r.perceived_normalized) / r.forecasted_normalized * 100 ∧
      (r.value_category = "Undervalued" ∨ r.value_category = "Overvalued" ∨
        r.value_category = "Fair Value") := by
  refine ⟨by simp [calculate_discount_premium], fun r hr => ?_⟩
  have h := mem_calculate_discount_premium hr
  refine ⟨h.1, ?_⟩
  rw [h.2.1]
  unfold categorize
  split_ifs <;> simp

/-- C3: the classifier assigns exactly one of the three categories, and the
assignment agrees with the configured thresholds on every classified row. -/
theorem value_category_partition (t_discount t_premium : ℚ) (h : t_premium ≤ t_discount)
    (df : List NormRow) (r : ClassifiedRow)
    (hr : r ∈ calculate_discount_premium t_discount t_premium df) :
    (r.value_category = "Undervalued" ∨ r.value_category = "Overvalued" ∨
      r.value_category = "Fair Value") ∧
    (r.value_category = "Undervalued" ↔ t_discount < r.discount_premium) ∧
    (r.value_category = "Overvalued" ↔ r.discount_premium < t_premium) ∧
    (r.value_category = "Fair Value" ↔
      t_premium ≤ r.discount_premium ∧ r.discount_premium ≤ t_discount) := by
  have hm := mem_calculate_discount_premium hr
  rw [hm.2.1]
  exact categorize_spec t_discount t_premium r.discount_premium h

/-- C4: every row of the merged table, and hence every row reaching
normalization and classification, has both values present; players missing
either value were dropped by the merge and appear in no downstream row. -/
theorem merged_rows_complete (t_discount t_premium : ℚ) (roster : List RosterRow)
    (perceived : List PerceivedRow) (forecasted : List ForecastRow) :
    (∀ m ∈ merge_data_sources roster perceived forecasted,
      m.perceived_value.isSome ∧ m.forecasted_value.isSome) ∧
    (∀ r ∈ pipeline t_discount t_premium roster perceived forecasted,
      r.perceived_value.isSome ∧ r.forecasted_value.isSome) := by
  have key : ∀ m ∈ merge_data_sources roster perceived forecasted,
      m.perceived_value.isSome ∧ m.forecasted_value.isSome := by
    intro m hm
    have h := mem_merge_data_sources hm
    obtain ⟨p, _, _, hpv⟩ := h.2.2
    exact ⟨by rw [hpv]; rfl, h.2.1⟩
  refine ⟨key, fun r hr => ?_⟩
  unfold pipeline at hr
  have h1 := mem_calculate_discount_premium hr
  have h2 := mem_normalize_values h1.2.2
  exact key _ h2

/-- C5: the merge makes the adjusted perceived value supersede the raw one:
every merged row's `perceived_value` column (the one every downstream stage
reads) holds the matching perceived row's `perceived_value_adjusted`. -/
theorem adjusted_value_supersedes (roster : List RosterRow)
    (perceived : List PerceivedRow) (forecasted : List ForecastRow) (m : MergedRow)
    (hm : m ∈ merge_data_sources roster perceived forecasted) :
    m.perceived_value = m.perceived_value_adjusted ∧
    ∃ p ∈ perceived, p.player_name = m.player_name ∧
      m.perceived_value = some p.perceived_value_adjusted := by
  have h := mem_merge_data_sources hm
  exact ⟨h.1, h.2.2⟩

/-- C8: when both value tables are non-empty but no roster player has complete
tri-source coverage (the merge yields zero rows), the run aborts with the
distinct NoCompleteMatches fatal condition and never treats the empty table as
a successful result. -/
theorem no_complete_matches_fatal (t_discount t_premium : ℚ) (roster : List RosterRow)
    (perceived : List PerceivedRow) (forecasted : List ForecastRow)
    (hp : perceived ≠ []) (hf : forecasted ≠ [])
    (hm : merge_data_sources roster perceived forecasted = []) :
    run_main t_discount t_premium roster perceived forecasted
      = Except.error RunError.NoCompleteMatches ∧
    ∀ out, run_main t_discount t_premium roster perceived forecasted ≠ Except.ok out := by
  have h : run_main t_discount t_premium roster perceived forecasted
      = Except.error RunError.NoCompleteMatches := by
    simp [run_main, List.isEmpty_iff, hp, hf, hm]
  exact ⟨h, fun out hout => by rw [h] at hout; exact Except.noConfusion hout⟩

/-- C9: the merge, then normalize, then classify pipeline is a deterministic,
stateless function of the analyzer's three input tables: two analyzers with
equal inputs produce equal classified tables whatever their caches hold, and
rerunning the pipeline on an analyzer reproduces the same state. -/
theorem pipeline_deterministic (t_discount t_premium : ℚ) (a b : TradeAnalyzer)
    (hr : a.roster_df = b.roster_df) (hp : a.perceived_df = b.perceived_df)
    (hf : a.forecasted_df = b.forecasted_df) :
    (run_pipeline t_discount t_premium a).merged_df
      = (run_pipeline t_discount t_premium b).merged_df ∧
    run_pipeline t_discount t_premium (run_pipeline t_discount t_premium a)
      = run_pipeline t_discount t_premium a := by
  constructor
  · simp [run_pipeline, hr, hp, hf]
  · rfl

/-- C10: the `value_gain_pct` of every emitted suggestion is the guarded
ratio: gain over the give-candidate's forecast when that forecast is positive,
and 0 otherwise, so no suggestion is built by dividing by zero. -/
theorem value_gain_pct_guarded (t_discount t_premium tolerance : ℚ)
    (untouchable : List String) (df : List ClassifiedRow) (your_team : String)
    (max_suggestions : Nat) (s : TradeSuggestion)
    (hs : s ∈ suggest_trade_pairs t_discount t_premium tolerance untouchable df
      your_team max_suggestions) :
    s.value_gain_pct = if s.give_forecasted > 0
      then s.value_gain / s.give_forecasted * 100 else 0 := by
  obtain ⟨yp, t, _, _, _, _, _, rfl⟩ := mem_suggest_trade_pairs hs
  rfl

/-- C6: every emitted trade suggestion keeps the get-candidate's perceived
value inside the tolerance band around the give-candidate's, and its
`value_gain` is the forecast difference and strictly exceeds the minimum gain
threshold of 5 normalized points. -/
theorem trade_pair_tolerance_and_gain (t_discount t_premium tolerance : ℚ)
    (untouchable : List String) (df : List ClassifiedRow) (your_team : String)
    (max_suggestions : Nat) (s : TradeSuggestion)
    (hs : s ∈ suggest_trade_pairs t_discount t_premium tolerance untouchable df
      your_team max_suggestions) :
    |s.get_perceived - s.give_perceived| ≤ tolerance * s.give_perceived ∧
    s.value_gain = s.get_forecasted - s.give_forecasted ∧
    5 < s.value_gain := by
  obtain ⟨yp, t, _, _, h1, h2, hg, rfl⟩ := mem_suggest_trade_pairs hs
  refine ⟨?_, rfl, hg⟩
  have e1 : yp.perceived_normalized * (1 - tolerance)
      = yp.perceived_normalized - tolerance * yp.perceived_normalized := by ring
  have e2 : yp.perceived_normalized * (1 + tolerance)
      = yp.perceived_normalized + tolerance * yp.perceived_normalized := by ring
  show |t.perceived_normalized - yp.perceived_normalized|
      ≤ tolerance * yp.perceived_normalized
  rw [abs_le]
  constructor <;> [linarith [e1 ▸ h1]; linarith [e2 ▸ h2]]

/-- Two chained filters collapse into one conjunctive filter. -/
theorem filter_chain2 {α : Type} (l : List α) (pA pB : α → Bool) :
    (l.filter pA).filter pB = l.filter fun a => pA a && pB a := by
  simp only [List.filter_filter]
  exact List.filter_congr fun a _ => by cases pA a <;> cases pB a <;> rfl

/-- Three chained filters collapse into one conjunctive filter. -/
theorem filter_chain3 {α : Type} (l : List α) (pA pB pC : α → Bool) :
    ((l.filter pA).filter pB).filter pC
      = l.filter fun a => pA a && pB a && pC a := by
  rw [filter_chain2, filter_chain2]
  exact List.filter_congr fun a _ => by
    cases pA a <;> cases pB a <;> cases pC a <;> rfl

/-- Four chained filters collapse into one conjunctive filter. -/
theorem filter_chain4 {α : Type} (l : List α) (pA pB pC pD : α → Bool) :
    (((l.filter pA).filter pB).filter pC).filter pD
      = l.filter fun a => pA a && pB a && pC a && pD a := by
  rw [filter_chain3, filter_chain2]
  exact List.filter_congr fun a _ => by
    cases pA a <;> cases pB a <;> cases pC a <;> cases pD a <;> rfl

/-- The underlying row multiset of `find_trade_targets`: exactly the other
teams' rows above the discount threshold, restricted by the supplied position
filter and cleared of untouchables. -/
theorem find_trade_targets_perm (t_discount : ℚ) (untouchable : List String)
    (df : List ClassifiedRow) (your_team : String) (position_filter : Option String)
    (hpf : position_filter ≠ some "") :
    List.Perm (find_trade_targets t_discount untouchable df your_team position_filter)
      (df.filter fun m =>
        !(m.team_name == your_team) && decide (m.discount_premium > t_discount) &&
        (match position_filter with | some p => m.position == p | none => true) &&
        !(untouchable.contains m.player_name)) := by
  unfold find_trade_targets
  refine List.Perm.trans (List.perm_insertionSort _ _) (List.Perm.of_eq ?_)
  rcases position_filter with _ | p
  · dsimp only
    by_cases hu : untouchable.isEmpty
    · rw [if_pos hu]
      have hul : untouchable = [] := List.isEmpty_iff.mp hu
      subst hul
      rw [filter_chain2]
      exact List.filter_congr fun m _ => by
        cases m.team_name == your_team <;>
          cases decide (m.discount_premium > t_discount) <;> rfl
    · rw [if_neg hu, filter_chain3]
      exact List.filter_congr fun m _ => by
        cases m.team_name == your_team <;>
          cases decide (m.discount_premium > t_discount) <;>
          cases untouchable.contains m.player_name <;> rfl
  · have hpe : (p == "") = false := by
      simp only [beq_eq_false_iff_ne, ne_eq]
      intro h
      exact hpf (by rw [h])
    dsimp only
    rw [hpe]
    simp only [Bool.false_eq_true, if_false]
    by_cases hu : untouchable.isEmpty
    · rw [if_pos hu]
      have hul : untouchable = [] := List.isEmpty_iff.mp hu
      subst hul
      rw [filter_chain3]
      exact List.filter_congr fun m _ => by
        cases m.team_name == your_team <;>
          cases decide (m.discount_premium > t_discount) <;>
          cases m.position == p <;> rfl
    · rw [if_neg hu, filter_chain4]

/-- The output of `find_trade_targets` is sorted descending by
`discount_premium`. -/
theorem find_trade_targets_sorted (t_discount : ℚ) (untouchable : List String)
    (df : List ClassifiedRow) (your_team : String) (position_filter : Option String) :
    List.Sorted (fun a b : ClassifiedRow => b.discount_premium ≤ a.discount_premium)
      (find_trade_targets t_discount untouchable df your_team position_filter) := by
  haveI h1 : IsTotal ClassifiedRow (fun a b => b.discount_premium ≤ a.discount_premium) :=
    ⟨fun a b => le_total b.discount_premium a.discount_premium⟩
  haveI h2 : IsTrans ClassifiedRow (fun a b => b.discount_premium ≤ a.discount_premium) :=
    ⟨fun a b c hab hbc => le_trans hbc hab⟩
  exact List.sorted_insertionSort _ _

/-- C7: on a classified row set, `find_trade_targets` returns exactly the rows
of other teams whose category is Undervalued, restricted to the supplied
position and cleared of untouchable players, sorted descending by
`discount_premium`.  (The position filter hypothesis excludes the empty
string, which Python truthiness treats as no filter; positions are non-empty
category names.) -/
theorem find_trade_targets_spec (t_discount t_premium : ℚ) (h : t_premium ≤ t_discount)
    (untouchable : List String) (df0 : List NormRow) (your_team : String)
    (position_filter : Option String) (hpf : position_filter ≠ some "") :
    List.Perm
      (find_trade_targets t_discount untouchable
        (calculate_discount_premium t_discount t_premium df0) your_team position_filter)
      ((calculate_discount_premium t_discount t_premium df0).filter fun m =>
        !(m.team_name == your_team) && (m.value_category == "Undervalued") &&
        (match position_filter with | some p => m.position == p | none => true) &&
        !(untouchable.contains m.player_name)) ∧
    List.Sorted (fun a b : ClassifiedRow => b.discount_premium ≤ a.discount_premium)
      (find_trade_targets t_discount untouchable
        (calculate_discount_premium t_discount t_premium df0) your_team position_filter) := by
  refine ⟨List.Perm.trans
    (find_trade_targets_perm t_discount untouchable _ your_team position_filter hpf)
    (List.Perm.of_eq ?_),
    find_trade_targets_sorted t_discount untouchable _ your_team position_filter⟩
  have hcat : ∀ m ∈ calculate_discount_premium t_discount t_premium df0,
      decide (m.discount_premium > t_discount) = (m.value_category == "Undervalued") := by
    intro m hm
    have hiff := (categorize_spec t_discount t_premium m.discount_premium h).2.1
    rw [← (mem_calculate_discount_premium hm).2.1] at hiff
    rcases Decidable.em (t_discount < m.discount_premium) with hlt | hlt
    · exact (decide_eq_true hlt).trans (beq_iff_eq.mpr (hiff.mpr hlt)).symm
    · exact (decide_eq_false hlt).trans
        (beq_eq_false_iff_ne.mpr fun he => hlt (hiff.mp he)).symm
  exact List.filter_congr fun m hm => by rw [hcat m hm]

/-! Evaluation lemmas on the example tables, shared by the witnesses. -/

/-- The example merge produces exactly Alice's and Dave's complete rows. -/
theorem exMerge_eval :
    merge_data_sources exRoster exPerceived exForecast = [mAlice, mDave] := by
  decide

/-- The example pipeline classifies Alice as Overvalued and Dave as
Undervalued. -/
theorem exClassified_eval : exClassified = [cAlice, cDave] := by
  rw [exClassified, exNorm, exMerge_eval]
  norm_num [normalize_values, calculate_discount_premium, categorize,
    interpret_discount, colMean, MIN_DISCOUNT_THRESHOLD, MIN_PREMIUM_THRESHOLD,
    mAlice, mDave, cAlice, cDave, Option.getD]

/-- On the example rows, TeamX's overvalued list is exactly Alice. -/
theorem exOver_eval :
    (analyze_team MIN_DISCOUNT_THRESHOLD MIN_PREMIUM_THRESHOLD [cAlice, cDave]
      exTeam).1 = [cAlice] := by
  norm_num [analyze_team, List.insertionSort, List.orderedInsert, List.filter_cons,
    MIN_DISCOUNT_THRESHOLD, MIN_PREMIUM_THRESHOLD, exTeam, cAlice, cDave,
    mAlice, mDave]

/-- On the example rows, the trade targets for TeamX are exactly Dave. -/
theorem exTargets_eval :
    find_trade_targets MIN_DISCOUNT_THRESHOLD UNTOUCHABLE_PLAYERS [cAlice, cDave]
      exTeam none = [cDave] := by
  norm_num [find_trade_targets, List.insertionSort, List.orderedInsert,
    List.filter_cons, MIN_DISCOUNT_THRESHOLD, UNTOUCHABLE_PLAYERS, exTeam,
    cAlice, cDave, mAlice, mDave,
    (show ("TeamY" : String) ≠ "TeamX" by decide),
    (show ("TeamX" : String) ≠ "TeamX" → False by decide)]

/-- The example matcher emits exactly the give-Alice-get-Dave suggestion. -/
theorem exSuggestion_eval :
    suggest_trade_pairs MIN_DISCOUNT_THRESHOLD MIN_PREMIUM_THRESHOLD (1 / 2)
      UNTOUCHABLE_PLAYERS exClassified exTeam 10 = [exSuggestion] := by
  rw [exClassified_eval]
  simp only [suggest_trade_pairs]
  rw [exOver_eval, exTargets_eval]
  norm_num [mkSuggestion, List.insertionSort, List.orderedInsert, List.filter_cons,
    exSuggestion, cAlice, cDave, mAlice, mDave, Option.some_ne_none,
    List.filterMap_cons, List.filterMap_nil, List.take]

/-! Counterexamples for the corrected claims. -/

/-- C1 counterexample: on the one-player tables whose values are all zero, the
merged set is non-empty yet neither normalized column has mean 100 — both
means are the junk value 0 (pandas: NaN), far outside any epsilon of 100. -/
theorem normalize_mean_counterexample :
    merge_data_sources zeroRoster zeroPerceived zeroForecast ≠ [] ∧
    colMean ((normalize_values (merge_data_sources zeroRoster zeroPerceived
      zeroForecast)).map fun r => r.perceived_normalized) ≠ 100 ∧
    colMean ((normalize_values (merge_data_sources zeroRoster zeroPerceived
      zeroForecast)).map fun r => r.forecasted_normalized) ≠ 100 := by
  have hmerge : merge_data_sources zeroRoster zeroPerceived zeroForecast
      = [⟨"Zoe", "RB", "TeamZ", some 0, some 0, some 1, some 0⟩] := by decide
  refine ⟨by rw [hmerge]; simp, ?_, ?_⟩ <;>
    rw [hmerge] <;>
    norm_num [normalize_values, colMean, Option.getD]

/-- C2 counterexample: Alice's row has `forecasted_normalized = 0`, yet the
classifier neither excludes it nor marks it Unknown — the row stays in the
output with the ordinary category Fair Value (pandas reaches the same label:
the NaN divergence fails both threshold comparisons). -/
theorem zero_forecast_row_not_excluded :
    (pipeline MIN_DISCOUNT_THRESHOLD MIN_PREMIUM_THRESHOLD zfRoster zfPerceived
      zfForecast).map (fun r => (r.forecasted_normalized, r.value_category))
      = [(0, "Fair Value"), (200, "Fair Value")] := by
  have hmerge : merge_data_sources zfRoster zfPerceived zfForecast
      = [⟨"Alice", "RB", "TeamX", some 0, some 0, some 1, some 0⟩,
         ⟨"Bob", "WR", "TeamY", some 100, some 100, some 2, some 100⟩] := by decide
  rw [pipeline, hmerge]
  norm_num [normalize_values, calculate_discount_premium, categorize,
    interpret_discount, colMean, Option.getD, MIN_DISCOUNT_THRESHOLD,
    MIN_PREMIUM_THRESHOLD]

/-! Witnesses: each one applies its claim's theorem at the concrete example
tables, discharging every hypothesis there. -/

/-- Witness for C1 at the example tables, whose column means are 100. -/
theorem normalize_mean_invariant_witness :
    merge_data_sources exRoster exPerceived exForecast ≠ [] ∧
    colMean ((merge_data_sources exRoster exPerceived exForecast).map
      fun m => m.perceived_value.getD 0) ≠ 0 ∧
    colMean ((merge_data_sources exRoster exPerceived exForecast).map
      fun m => m.forecasted_value.getD 0) ≠ 0 ∧
    (colMean ((normalize_values (merge_data_sources exRoster exPerceived
        exForecast)).map fun r => r.perceived_normalized) = 100 ∧
    colMean ((normalize_values (merge_data_sources exRoster exPerceived
        exForecast)).map fun r => r.forecasted_normalized) = 100) := by
  have h1 : merge_data_sources exRoster exPerceived exForecast ≠ [] := by decide
  have h2 : colMean ((merge_data_sources exRoster exPerceived exForecast).map
      fun m => m.perceived_value.getD 0) ≠ 0 := by
    rw [exMerge_eval]
    norm_num [colMean, mAlice, mDave, Option.getD]
  have h3 : colMean ((merge_data_sources exRoster exPerceived exForecast).map
      fun m => m.forecasted_value.getD 0) ≠ 0 := by
    rw [exMerge_eval]
    norm_num [colMean, mAlice, mDave, Option.getD]
  exact ⟨h1, h2, h3, normalize_mean_invariant exRoster exPerceived exForecast h1 h2 h3⟩

/-- Witness for C2 at Alice's classified example row. -/
theorem discount_premium_total_classification_witness :
    cAlice ∈ calculate_discount_premium MIN_DISCOUNT_THRESHOLD
      MIN_PREMIUM_THRESHOLD exNorm ∧
    (cAlice.discount_premium =
      (cAlice.forecasted_normalized - cAlice.perceived_normalized) /
        cAlice.forecasted_normalized * 100 ∧
     (cAlice.value_category = "Undervalued" ∨ cAlice.value_category = "Overvalued" ∨
      cAlice.value_category = "Fair Value")) := by
  have hm : cAlice ∈ calculate_discount_premium MIN_DISCOUNT_THRESHOLD
      MIN_PREMIUM_THRESHOLD exNorm := by
    rw [show calculate_discount_premium MIN_DISCOUNT_THRESHOLD MIN_PREMIUM_THRESHOLD
      exNorm = [cAlice, cDave] from exClassified_eval]
    simp
  exact ⟨hm, (discount_premium_total_classification MIN_DISCOUNT_THRESHOLD
    MIN_PREMIUM_THRESHOLD exNorm).2 cAlice hm⟩

/-- Witness for C3 at Dave's classified example row, whose divergence 140/3
exceeds the default discount threshold 10, so he is Undervalued. -/
theorem value_category_partition_witness :
    MIN_PREMIUM_THRESHOLD ≤ MIN_DISCOUNT_THRESHOLD ∧
    cDave ∈ calculate_discount_premium MIN_DISCOUNT_THRESHOLD
      MIN_PREMIUM_THRESHOLD exNorm ∧
    ((cDave.value_category = "Undervalued" ∨ cDave.value_category = "Overvalued" ∨
      cDave.value_category = "Fair Value") ∧
     (cDave.value_category = "Undervalued" ↔
       MIN_DISCOUNT_THRESHOLD < cDave.discount_premium) ∧
     (cDave.value_category = "Overvalued" ↔
       cDave.discount_premium < MIN_PREMIUM_THRESHOLD) ∧
     (cDave.value_category = "Fair Value" ↔
       MIN_PREMIUM_THRESHOLD ≤ cDave.discount_premium ∧
       cDave.discount_premium ≤ MIN_DISCOUNT_THRESHOLD)) := by
  have h0 : MIN_PREMIUM_THRESHOLD ≤ MIN_DISCOUNT_THRESHOLD := by
    norm_num [MIN_PREMIUM_THRESHOLD, MIN_DISCOUNT_THRESHOLD]
  have hm : cDave ∈ calculate_discount_premium MIN_DISCOUNT_THRESHOLD
      MIN_PREMIUM_THRESHOLD exNorm := by
    rw [show calculate_discount_premium MIN_DISCOUNT_THRESHOLD MIN_PREMIUM_THRESHOLD
      exNorm = [cAlice, cDave] from exClassified_eval]
    simp
  exact ⟨h0, hm, value_category_partition MIN_DISCOUNT_THRESHOLD
    MIN_PREMIUM_THRESHOLD h0 exNorm cDave hm⟩

/-- Witness for C4 at Alice's merged example row. -/
theorem merged_rows_complete_witness :
    mAlice ∈ merge_data_sources exRoster exPerceived exForecast ∧
    (mAlice.perceived_value.isSome ∧ mAlice.forecasted_value.isSome) := by
  have hm : mAlice ∈ merge_data_sources exRoster exPerceived exForecast := by
    rw [exMerge_eval]
    simp
  exact ⟨hm, (merged_rows_complete MIN_DISCOUNT_THRESHOLD MIN_PREMIUM_THRESHOLD
    exRoster exPerceived exForecast).1 mAlice hm⟩

/-- Witness for C5 at Alice's merged example row, whose raw perceived value 100
was superseded by the adjusted 120. -/
theorem adjusted_value_supersedes_witness :
    mAlice ∈ merge_data_sources exRoster exPerceived exForecast ∧
    (mAlice.perceived_value = mAlice.perceived_value_adjusted ∧
     ∃ p ∈ exPerceived, p.player_name = mAlice.player_name ∧
       mAlice.perceived_value = some p.perceived_value_adjusted) := by
  have hm : mAlice ∈ merge_data_sources exRoster exPerceived exForecast := by
    rw [exMerge_eval]
    simp
  exact ⟨hm, adjusted_value_supersedes exRoster exPerceived exForecast mAlice hm⟩

/-- Witness for C6 at the one suggestion the example matcher emits. -/
theorem trade_pair_tolerance_and_gain_witness :
    exSuggestion ∈ suggest_trade_pairs MIN_DISCOUNT_THRESHOLD MIN_PREMIUM_THRESHOLD
      (1 / 2) UNTOUCHABLE_PLAYERS exClassified exTeam 10 ∧
    (|exSuggestion.get_perceived - exSuggestion.give_perceived|
        ≤ 1 / 2 * exSuggestion.give_perceived ∧
     exSuggestion.value_gain = exSuggestion.get_forecasted - exSuggestion.give_forecasted ∧
     5 < exSuggestion.value_gain) := by
  have hm : exSuggestion ∈ suggest_trade_pairs MIN_DISCOUNT_THRESHOLD
      MIN_PREMIUM_THRESHOLD (1 / 2) UNTOUCHABLE_PLAYERS exClassified exTeam 10 := by
    rw [exSuggestion_eval]
    simp
  exact ⟨hm, trade_pair_tolerance_and_gain MIN_DISCOUNT_THRESHOLD
    MIN_PREMIUM_THRESHOLD (1 / 2) UNTOUCHABLE_PLAYERS exClassified exTeam 10
    exSuggestion hm⟩

/-- Witness for C7 at the classified example rows with no position filter. -/
theorem find_trade_targets_spec_witness :
    MIN_PREMIUM_THRESHOLD ≤ MIN_DISCOUNT_THRESHOLD ∧
    (none : Option String) ≠ some "" ∧
    (List.Perm
      (find_trade_targets MIN_DISCOUNT_THRESHOLD UNTOUCHABLE_PLAYERS
        (calculate_discount_premium MIN_DISCOUNT_THRESHOLD MIN_PREMIUM_THRESHOLD
          exNorm) exTeam none)
      ((calculate_discount_premium MIN_DISCOUNT_THRESHOLD MIN_PREMIUM_THRESHOLD
          exNorm).filter fun m =>
        !(m.team_name == exTeam) && (m.value_category == "Undervalued") &&
        (match (none : Option String) with | some p => m.position == p | none => true) &&
        !(UNTOUCHABLE_PLAYERS.contains m.player_name)) ∧
     List.Sorted (fun a b : ClassifiedRow => b.discount_premium ≤ a.discount_premium)
      (find_trade_targets MIN_DISCOUNT_THRESHOLD UNTOUCHABLE_PLAYERS
        (calculate_discount_premium MIN_DISCOUNT_THRESHOLD MIN_PREMIUM_THRESHOLD
          exNorm) exTeam none)) := by
  have h0 : MIN_PREMIUM_THRESHOLD ≤ MIN_DISCOUNT_THRESHOLD := by
    norm_num [MIN_PREMIUM_THRESHOLD, MIN_DISCOUNT_THRESHOLD]
  have h1 : (none : Option String) ≠ some "" := by simp
  exact ⟨h0, h1, find_trade_targets_spec MIN_DISCOUNT_THRESHOLD
    MIN_PREMIUM_THRESHOLD h0 UNTOUCHABLE_PLAYERS exNorm exTeam none h1⟩

/-- Witness for C8: a roster matching neither value table, with both value
tables non-empty, ends the run in the NoCompleteMatches condition. -/
theorem no_complete_matches_fatal_witness :
    exPerceived ≠ [] ∧ exForecast ≠ [] ∧
    merge_data_sources noMatchRoster exPerceived exForecast = [] ∧
    run_main MIN_DISCOUNT_THRESHOLD MIN_PREMIUM_THRESHOLD noMatchRoster
      exPerceived exForecast = Except.error RunError.NoCompleteMatches := by
  have h1 : exPerceived ≠ [] := by decide
  have h2 : exForecast ≠ [] := by decide
  have h3 : merge_data_sources noMatchRoster exPerceived exForecast = [] := by decide
  exact ⟨h1, h2, h3, (no_complete_matches_fatal MIN_DISCOUNT_THRESHOLD
    MIN_PREMIUM_THRESHOLD noMatchRoster exPerceived exForecast h1 h2 h3).1⟩

/-- Witness for C9: two analyzers over the example tables, one with an empty
cache and one with a stale one, produce the same classified table, and a rerun
is idempotent. -/
theorem pipeline_deterministic_witness :
    exAnalyzerA.roster_df = exAnalyzerB.roster_df ∧
    exAnalyzerA.perceived_df = exAnalyzerB.perceived_df ∧
    exAnalyzerA.forecasted_df = exAnalyzerB.forecasted_df ∧
    ((run_pipeline MIN_DISCOUNT_THRESHOLD MIN_PREMIUM_THRESHOLD exAnalyzerA).merged_df
      = (run_pipeline MIN_DISCOUNT_THRESHOLD MIN_PREMIUM_THRESHOLD exAnalyzerB).merged_df ∧
     run_pipeline MIN_DISCOUNT_THRESHOLD MIN_PREMIUM_THRESHOLD
        (run_pipeline MIN_DISCOUNT_THRESHOLD MIN_PREMIUM_THRESHOLD exAnalyzerA)
      = run_pipeline MIN_DISCOUNT_THRESHOLD MIN_PREMIUM_THRESHOLD exAnalyzerA) :=
  ⟨rfl, rfl, rfl, pipeline_deterministic MIN_DISCOUNT_THRESHOLD
    MIN_PREMIUM_THRESHOLD exAnalyzerA exAnalyzerB rfl rfl rfl⟩

/-- Witness for C10 at the one emitted example suggestion, whose positive give
forecast 50 yields the ratio 200. -/
theorem value_gain_pct_guarded_witness :
    exSuggestion ∈ suggest_trade_pairs MIN_DISCOUNT_THRESHOLD MIN_PREMIUM_THRESHOLD
      (1 / 2) UNTOUCHABLE_PLAYERS exClassified exTeam 10 ∧
    exSuggestion.value_gain_pct = (if exSuggestion.give_forecasted > 0
      then exSuggestion.value_gain / exSuggestion.give_forecasted * 100 else 0) := by
  have hm : exSuggestion ∈ suggest_trade_pairs MIN_DISCOUNT_THRESHOLD
      MIN_PREMIUM_THRESHOLD (1 / 2) UNTOUCHABLE_PLAYERS exClassified exTeam 10 := by
    rw [exSuggestion_eval]
    simp
  exact ⟨hm, value_gain_pct_guarded MIN_DISCOUNT_THRESHOLD MIN_PREMIUM_THRESHOLD
    (1 / 2) UNTOUCHABLE_PLAYERS exClassified exTeam 10 exSuggestion hm⟩

end FantasyTrade
